import Mathlib

/-!
# Verification of the realestate-searchengine repository

Shallow embedding of the scoring engine and the frontend search logic of
the realestate-searchengine repository, with theorems settling the frozen
claims about it.  Numeric values are modelled with `ℚ` (the JavaScript and
Python sources use IEEE doubles, but every constant involved — 0.4, 0.2,
tier scores, the recency table — is exactly representable and the claims
are about exact weighted sums, thresholds and sign tests, so rational
arithmetic is faithful).
-/

namespace RealEstate

/-! ## Backend scoring engine (spec-modelled)

The backend Python package (`backend/core/sources.py`,
`backend/core/pipeline.py`) is not part of the source tree available here;
only the README documents its algorithms.  The definitions in this section
are modelled from the spec and README. -/

/-- Clamp a rational to the unit interval `[0,1]`. -/
def clamp01 (x : ℚ) : ℚ := max 0 (min 1 x)

/-- Modelled from the spec: `trustScore(tier)` of the Source Trust Registry
(`backend/core/sources.py`, absent from src/): tier 1 → 1.0, tier 2 → 0.7,
tier 3 → 0.5, unknown domain (no tier) → 0.2. -/
def trustScoreOfTier : Option ℕ → ℚ
  | some 1 => 1
  | some 2 => 7/10
  | some 3 => 1/2
  | _ => 1/5

/-- Modelled from the spec: the Source Scorer's recency table
(`backend/core/sources.py`, absent from src/): piecewise on
age = now − publishedDate in days: ≤ 1 day → 1.0; ≤ 7 days → 0.8;
≤ 30 days → 0.6; ≤ 365 days → 0.4; older or unknown date → 0.2. -/
def recencyScoreOfAge : Option ℚ → ℚ
  | none => 1/5
  | some d =>
    if d ≤ 1 then 1
    else if d ≤ 7 then 4/5
    else if d ≤ 30 then 3/5
    else if d ≤ 365 then 2/5
    else 1/5

/-- A raw web-search result, as produced by the search collaborator.
`publishedAgeDays` is the age `now − publishedDate` in days (`none` when
the date is unknown), precomputed so that the scorer is a pure function. -/
structure RawResult where
  title : String
  url : String
  snippet : String
  searchRelevance : ℚ
  publishedAgeDays : Option ℚ
deriving Repr, DecidableEq

/-- A scored source: the raw result together with its trust tier and the
trust / recency / composite scores. -/
structure ScoredSource where
  raw : RawResult
  tier : Option ℕ
  trustScore : ℚ
  recencyScore : ℚ
  compositeScore : ℚ
  isTrusted : Bool
deriving Repr, DecidableEq

/-- Modelled from the spec: the Source Scorer
(`backend/core/sources.py`, absent from src/).
`compositeScore = 0.4*trustScore + 0.4*searchRelevance + 0.2*recencyScore`,
each factor clamped to `[0,1]`; a source is trusted iff its domain has a
tier in the registry. -/
def scoreSource (raw : RawResult) (tier : Option ℕ) : ScoredSource :=
  let t := trustScoreOfTier tier
  let rc := recencyScoreOfAge raw.publishedAgeDays
  { raw := raw
    tier := tier
    trustScore := t
    recencyScore := rc
    compositeScore :=
      2/5 * clamp01 t + 2/5 * clamp01 raw.searchRelevance + 1/5 * clamp01 rc
    isTrusted := tier.isSome }

/-- Mean composite score of a list of scored sources (0 when empty). -/
def meanComposite (ss : List ScoredSource) : ℚ :=
  if ss.isEmpty then 0
  else (ss.map (·.compositeScore)).sum / (ss.length : ℚ)

/-- Fraction of the sources that are trusted (0 when empty). -/
def trustedFraction (ss : List ScoredSource) : ℚ :=
  if ss.isEmpty then 0
  else ((ss.filter (·.isTrusted)).length : ℚ) / (ss.length : ℚ)

/-- Modelled from the spec: the Confidence Estimator
(`backend/core/pipeline.py`, absent from src/): blend of 50% mean composite
score, 30% trusted-source fraction, 20% extraction coverage, each sub-term
scaled to `[0,100]`; with zero sources the result is capped at the fixed
ceiling 20 regardless of the other terms. -/
def estimate (ss : List ScoredSource) (coverage : ℚ) : ℚ :=
  let blend :=
    50 * meanComposite ss + 30 * trustedFraction ss + 20 * clamp01 coverage
  if ss.isEmpty then min blend 20 else blend

lemma clamp01_nonneg (x : ℚ) : 0 ≤ clamp01 x := le_max_left 0 _

lemma clamp01_le_one (x : ℚ) : clamp01 x ≤ 1 :=
  max_le (by norm_num) (min_le_left 1 x)

/-- **C1.** For every scored source, `compositeScore` equals
`0.4*trustScore + 0.4*searchRelevance + 0.2*recencyScore` with each factor
clamped to `[0,1]` (exact rational equality, hence within the floating
tolerance 1e-6), and therefore `compositeScore` lies in `[0,1]`. -/
theorem compositeScore_formula_and_bounds (raw : RawResult) (tier : Option ℕ) :
    (scoreSource raw tier).compositeScore =
      2/5 * clamp01 (scoreSource raw tier).trustScore
        + 2/5 * clamp01 raw.searchRelevance
        + 1/5 * clamp01 (scoreSource raw tier).recencyScore ∧
    |(scoreSource raw tier).compositeScore -
      (2/5 * clamp01 (scoreSource raw tier).trustScore
        + 2/5 * clamp01 raw.searchRelevance
        + 1/5 * clamp01 (scoreSource raw tier).recencyScore)| ≤ 1/1000000 ∧
    0 ≤ (scoreSource raw tier).compositeScore ∧
    (scoreSource raw tier).compositeScore ≤ 1 := by
  have heq : (scoreSource raw tier).compositeScore =
      2/5 * clamp01 (scoreSource raw tier).trustScore
        + 2/5 * clamp01 raw.searchRelevance
        + 1/5 * clamp01 (scoreSource raw tier).recencyScore := rfl
  refine ⟨heq, by rw [heq, sub_self, abs_zero]; norm_num, ?_, ?_⟩
  · have h1 := clamp01_nonneg (trustScoreOfTier tier)
    have h2 := clamp01_nonneg raw.searchRelevance
    have h3 := clamp01_nonneg (recencyScoreOfAge raw.publishedAgeDays)
    simp only [scoreSource]
    linarith
  · have h1 := clamp01_le_one (trustScoreOfTier tier)
    have h2 := clamp01_le_one raw.searchRelevance
    have h3 := clamp01_le_one (recencyScoreOfAge raw.publishedAgeDays)
    simp only [scoreSource]
    linarith

/-- **C2, counterexample.** Scoring a tier-1 source with search relevance
0.9 and age 2 days does *not* yield recencyScore 1.0 and compositeScore
0.96: age 2 days falls in the `≤ 7 days` bucket of the piecewise table, so
the recency score is 0.8 and the composite 0.92. -/
theorem score_tier1_age2_cex :
    (scoreSource ⟨"t", "u", "s", 9/10, some 2⟩ (some 1)).recencyScore ≠ 1 ∧
    (scoreSource ⟨"t", "u", "s", 9/10, some 2⟩ (some 1)).compositeScore ≠ 24/25 := by
  norm_num [scoreSource, recencyScoreOfAge, trustScoreOfTier, clamp01, min_def, max_def]

/-- **C2, amended.** Scoring a tier-1-domain source with search relevance
0.9 and age 2 days yields trustScore = 1.0, recencyScore = 0.8 (2 days
falls in the `≤ 7 days` bucket of the piecewise age table), and
compositeScore = 0.4·1.0 + 0.4·0.9 + 0.2·0.8 = 0.92. -/
theorem score_tier1_age2 :
    (scoreSource ⟨"t", "u", "s", 9/10, some 2⟩ (some 1)).trustScore = 1 ∧
    (scoreSource ⟨"t", "u", "s", 9/10, some 2⟩ (some 1)).recencyScore = 4/5 ∧
    (scoreSource ⟨"t", "u", "s", 9/10, some 2⟩ (some 1)).compositeScore = 23/25 := by
  norm_num [scoreSource, recencyScoreOfAge, trustScoreOfTier, clamp01, min_def, max_def]

/-- **C3.** With zero retrieved sources the confidence estimate is at most
20, whatever the extraction-coverage term is. -/
theorem estimate_empty_le_20 (coverage : ℚ) : estimate [] coverage ≤ 20 := by
  simp only [estimate, List.isEmpty_nil, if_true]
  exact min_le_right _ _

/-! ## Frontend: search bar submission

Embeds `SearchBar.handleSubmit` (frontend/src/components, SearchBar):
`const trimmed = query.trim(); if (trimmed && !isLoading) onSearch(trimmed);`.
The result is the argument passed to `onSearch`, or `none` when the
callback is not invoked (an empty JavaScript string is falsy). -/

/-- JavaScript `String.prototype.trim`: drop whitespace from both ends of
the character list. -/
def trimChars (cs : List Char) : List Char :=
  ((cs.dropWhile Char.isWhitespace).reverse.dropWhile Char.isWhitespace).reverse

/-- JavaScript `query.trim()` on a Lean string. -/
def jsTrim (s : String) : String := ⟨trimChars s.data⟩

/-- `SearchBar.handleSubmit`: trims the query and invokes the `onSearch`
callback with the trimmed string only when it is non-empty (a falsy empty
string fails the `trimmed && !isLoading` guard) and no search is in
flight. -/
def handleSubmit (query : String) (isLoading : Bool) : Option String :=
  if jsTrim query ≠ "" ∧ isLoading = false then some (jsTrim query) else none

/-- **C4.** Submitting a query whose trimmed form is empty never invokes
`onSearch` (so no request is issued); whenever `onSearch` is invoked, the
query actually searched is exactly the trimmed input. -/
theorem handleSubmit_trim (query : String) (isLoading : Bool) :
    (jsTrim query = "" → handleSubmit query isLoading = none) ∧
    (∀ q, handleSubmit query isLoading = some q → q = jsTrim query ∧ q ≠ "") := by
  unfold handleSubmit
  constructor
  · intro h
    rw [h]
    simp
  · intro q hq
    split_ifs at hq with hcond
    have h := Option.some.inj hq
    exact ⟨h.symm, h ▸ hcond.1⟩

/-- Witness for C4 at concrete inputs: a whitespace-only query is dropped,
and `" hi "` is searched as `"hi"`. -/
theorem handleSubmit_trim_witness :
    handleSubmit "   " false = none ∧ ("hi" = jsTrim " hi " ∧ "hi" ≠ "") :=
  ⟨(handleSubmit_trim "   " false).1 (by decide),
   (handleSubmit_trim " hi " false).2 "hi" (by decide)⟩

/-! ## Frontend: the useSearch hook

Embeds the types and the SSE event switch of
`frontend/src/hooks/useSearch.ts`. -/

/-- A scored source as received by the frontend (`SourceResult`). -/
structure SourceResult where
  title : String
  url : String
  content : String
  score : ℚ
  domain : String
  is_trusted : Bool
  trust_level : String
  recency_score : ℚ
  composite_score : ℚ
  published_date : Option String

/-- One KPI tile value (`KPIValue`). -/
structure KPIValue where
  label : String
  value : Option String
  direction : String
  detail : Option String

/-- The structured market KPIs payload (`MarketKPIs`); every field is
optional. -/
structure MarketKPIs where
  median_price : Option KPIValue
  price_per_sqft : Option KPIValue
  active_listings : Option KPIValue
  days_on_market : Option KPIValue
  sale_to_list : Option KPIValue
  inventory_change : Option KPIValue
  yoy_price_change : Option KPIValue
  median_rent : Option KPIValue

/-- One trend metric (`TrendMetric`). -/
structure TrendMetric where
  label : String
  current : Option ℚ
  previous : Option ℚ
  unit : String
  change_pct : Option ℚ

/-- One comparable listing (`CompListing`); every field is nullable. -/
structure CompListing where
  address : Option String
  price : Option String
  sqft : Option String
  beds : Option String
  baths : Option String
  status : Option String
  source_url : Option String

/-- The `plan` event payload: the hook stores it opaquely; the page reads
its `widgets` list (and optional location/timeframe, irrelevant here). -/
structure Plan where
  widgets : List String

/-- The state managed by `useSearch` (`SearchState`). -/
structure SearchState where
  isLoading : Bool
  answer : String
  sources : List SourceResult
  confidenceScore : Option ℚ
  error : Option String
  isDomainReject : Bool
  rejectReason : String
  status : String
  plan : Option Plan
  kpis : Option MarketKPIs
  trends : List TrendMetric
  comps : List CompListing
  needsClarification : Bool
  clarificationQuestion : Option String
  originalQuery : Option String

/-- `INITIAL_STATE` from useSearch.ts. -/
def INITIAL_STATE : SearchState :=
  { isLoading := false
    answer := ""
    sources := []
    confidenceScore := none
    error := none
    isDomainReject := false
    rejectReason := ""
    status := ""
    plan := none
    kpis := none
    trends := []
    comps := []
    needsClarification := false
    clarificationQuestion := none
    originalQuery := none }

/-- A parsed SSE event, one constructor per case of the event switch in
`useSearch.search`. -/
inductive StreamEvent where
  | status (s : String)
  | plan (p : Plan)
  | answer_delta (chunk : String)
  | sources (ss : List SourceResult)
  | confidence (c : ℚ)
  | kpis (k : MarketKPIs)
  | trends (ts : List TrendMetric)
  | comps (cs : List CompListing)
  | clarification_needed (question original : String)
  | domain_reject (reason : String)
  | error (msg : String)

/-- The SSE event switch of `useSearch.search`: each case performs one
functional state update `setState((prev) => ...)`. -/
def applyEvent (prev : SearchState) : StreamEvent → SearchState
  | .status s => { prev with status := s }
  | .plan p => { prev with plan := some p }
  | .answer_delta chunk => { prev with answer := prev.answer ++ chunk, status := "" }
  | .sources ss => { prev with sources := ss }
  | .confidence c => { prev with confidenceScore := some c }
  | .kpis k => { prev with kpis := some k }
  | .trends ts => { prev with trends := ts }
  | .comps cs => { prev with comps := cs }
  | .clarification_needed q o =>
      { prev with needsClarification := true, clarificationQuestion := some q,
                  originalQuery := some o, isLoading := false }
  | .domain_reject r => { prev with isDomainReject := true, rejectReason := r }
  | .error m => { prev with error := some m }

lemma foldl_answer_delta_append (chunks : List String) (a b : String) :
    chunks.foldl (· ++ ·) (a ++ b) = a ++ chunks.foldl (· ++ ·) b := by
  induction chunks generalizing b with
  | nil => rfl
  | cons c cs ih => simpa [String.append_assoc] using ih (b ++ c)

lemma append_empty_str (s : String) : s ++ "" = s := by
  apply String.ext
  rw [String.data_append]
  exact List.append_nil _

lemma empty_append_str (s : String) : "" ++ s = s := by
  apply String.ext
  rw [String.data_append]
  exact List.nil_append _

lemma join_cons (c : String) (cs : List String) :
    String.join (c :: cs) = c ++ String.join cs := by
  show List.foldl (fun r s => r ++ s) ("" ++ c) cs = c ++ List.foldl (fun r s => r ++ s) "" cs
  rw [empty_append_str]
  calc List.foldl (fun r s => r ++ s) c cs
      = List.foldl (fun r s => r ++ s) (c ++ "") cs := by rw [append_empty_str]
    _ = c ++ List.foldl (fun r s => r ++ s) "" cs := foldl_answer_delta_append cs c ""

/-- **C5.** Processing any sequence of `answer_delta` events appends their
payloads to the answer in arrival order: the final answer is the previous
answer followed by the concatenation of all chunks — none buffered,
dropped, or reordered. -/
theorem answer_accumulates (st : SearchState) (chunks : List String) :
    ((chunks.map StreamEvent.answer_delta).foldl applyEvent st).answer =
      st.answer ++ String.join chunks := by
  induction chunks generalizing st with
  | nil => exact (append_empty_str st.answer).symm
  | cons c cs ih =>
    simp only [List.map_cons, List.foldl_cons]
    rw [ih]
    show (st.answer ++ c) ++ String.join cs = st.answer ++ String.join (c :: cs)
    rw [join_cons, ← String.append_assoc]

/-- **C6.** Each of the `sources`, `confidence`, `kpis`, `trends`, `comps`
and `plan` events replaces exactly the correspondingly named state field
with its payload and leaves every other field of the state unchanged. -/
theorem applyEvent_frame (st : SearchState) (ss : List SourceResult) (c : ℚ)
    (k : MarketKPIs) (ts : List TrendMetric) (cs : List CompListing) (p : Plan) :
    applyEvent st (.sources ss) = { st with sources := ss } ∧
    applyEvent st (.confidence c) = { st with confidenceScore := some c } ∧
    applyEvent st (.kpis k) = { st with kpis := some k } ∧
    applyEvent st (.trends ts) = { st with trends := ts } ∧
    applyEvent st (.comps cs) = { st with comps := cs } ∧
    applyEvent st (.plan p) = { st with plan := some p } :=
  ⟨rfl, rfl, rfl, rfl, rfl, rfl⟩

/-! ### The lifecycle of one `search()` call (C7)

`search()` first aborts any in-flight request (`abortRef.current.abort()`),
then resets the state to `{...INITIAL_STATE, isLoading: true, status:
"Starting search..."}` before reading the stream.  The run then ends in
one of five ways, modelled by `FetchOutcome`: the stream is read to
completion, the response is not ok, the response has no body, the fetch
rejects with `AbortError` (the catch block returns without touching the
error field), or it rejects with another error.  The `finally` block
always clears `isLoading`. -/

/-- The state installed by `search()` before any event of the new stream
is applied. -/
def resetForNewSearch : SearchState :=
  { INITIAL_STATE with isLoading := true, status := "Starting search..." }

/-- How the `fetch`/stream phase of one `search()` call ends. -/
inductive FetchOutcome where
  | streamed (events : List StreamEvent)
  | httpError (detail : String)
  | noBody
  | aborted
  | failed (msg : String)

/-- The state at the end of one `search()` call, as a function of how the
fetch phase ended. -/
def runSearch (outcome : FetchOutcome) : SearchState :=
  let afterBody : SearchState :=
    match outcome with
    | .streamed evs => evs.foldl applyEvent resetForNewSearch
    | .httpError d => { resetForNewSearch with error := some d }
    | .noBody => { resetForNewSearch with error := some "No response stream" }
    | .aborted => resetForNewSearch
    | .failed m => { resetForNewSearch with error := some m }
  { afterBody with isLoading := false }

/-- **C7.** Every `search()` call applies the events of its stream to a
state in which all result fields have been reset to their initial values
(answer, sources, confidence, error, kpis, trends, comps, plan, reject
state); and a run terminated by abort ends with `error = none` — the
cancelled run reports nothing. -/
theorem search_resets_and_abort_silent (evs : List StreamEvent) :
    runSearch (.streamed evs) =
      { evs.foldl applyEvent resetForNewSearch with isLoading := false } ∧
    resetForNewSearch.answer = INITIAL_STATE.answer ∧
    resetForNewSearch.sources = INITIAL_STATE.sources ∧
    resetForNewSearch.confidenceScore = INITIAL_STATE.confidenceScore ∧
    resetForNewSearch.error = INITIAL_STATE.error ∧
    resetForNewSearch.kpis = INITIAL_STATE.kpis ∧
    resetForNewSearch.trends = INITIAL_STATE.trends ∧
    resetForNewSearch.comps = INITIAL_STATE.comps ∧
    resetForNewSearch.plan = INITIAL_STATE.plan ∧
    resetForNewSearch.isDomainReject = INITIAL_STATE.isDomainReject ∧
    resetForNewSearch.rejectReason = INITIAL_STATE.rejectReason ∧
    runSearch .aborted = { resetForNewSearch with isLoading := false } ∧
    (runSearch .aborted).error = none :=
  ⟨rfl, rfl, rfl, rfl, rfl, rfl, rfl, rfl, rfl, rfl, rfl, rfl, rfl⟩

/-! ## Frontend: ScenarioExplorer's mortgage formula (C8)

Embeds `monthlyPayment` from `ScenarioExplorer.tsx`:
```
const r = annualRatePct / 100 / 12;
const n = termYears * 12;
if (r === 0) return principal / n;
return (principal * r * Math.pow(1 + r, n)) / (Math.pow(1 + r, n) - 1);
```
The term is a whole number of years, so the exponent `n` is a natural
number and `Math.pow` is iterated multiplication. -/

/-- `monthlyPayment` from ScenarioExplorer, embedded in exact rational
arithmetic.  The source computes in IEEE doubles; the rational embedding
is faithful to the branch structure (`r === 0` is an exact comparison in
both) and to values at which double arithmetic is exact, but it cannot
reflect double rounding — e.g. for a tiny nonzero rate the double
`1 + r` rounds to exactly `1.0` and the program's denominator
`Math.pow(1+r, n) - 1` vanishes even though the rational one does not,
so no exact-arithmetic theorem may assert the denominator nonzero for
all nonzero rates. -/
def monthlyPayment (principal annualRatePct : ℚ) (termYears : ℕ) : ℚ :=
  let r := annualRatePct / 100 / 12
  let n := termYears * 12
  if r = 0 then principal / (n : ℚ)
  else (principal * r * (1 + r) ^ n) / ((1 + r) ^ n - 1)

/-- **C8, counterexample.** The amortization formula's denominator is not
always nonzero for `r ≠ 0`: at an annual rate of −2400% the monthly rate
is `r = −2`, so `(1+r)^n − 1 = (−1)^360 − 1 = 0` and the formula branch
divides by zero (under the rational convention `x / 0 = 0` the embedded
function returns 0; the JavaScript original produces a division of a
nonzero numerator by zero). -/
theorem monthlyPayment_divzero_cex :
    ((-2400 : ℚ) / 100 / 12 ≠ 0) ∧
    ((1 + (-2400 : ℚ) / 100 / 12) ^ (30 * 12) - 1 = 0) ∧
    monthlyPayment 200000 (-2400) 30 = 0 := by
  norm_num [monthlyPayment]

/-- **C8, amended.** Whenever the monthly rate
`r = annualRatePct / 100 / 12` is zero — in particular at an annual rate
of 0% — `monthlyPayment` takes the guarded branch and returns
`principal / (termYears * 12)`, so the amortization formula, whose
denominator is zero at zero rate, is evaluated only when `r ≠ 0`.  The
guard does not make the formula branch division-free for nonzero rates:
its denominator also vanishes at `annualRatePct = −2400`
(see the counterexample above). -/
theorem monthlyPayment_zero_rate_guard (principal annualRatePct : ℚ)
    (termYears : ℕ) (_ht : 0 < termYears)
    (hr : annualRatePct / 100 / 12 = 0) :
    monthlyPayment principal annualRatePct termYears =
      principal / ((termYears * 12 : ℕ) : ℚ) := by
  simp only [monthlyPayment]
  rw [if_pos hr]

/-- Witness for C8 (amended) at principal 240000, annual rate 0%, term 30
years. -/
theorem monthlyPayment_zero_rate_witness :
    monthlyPayment 240000 0 30 = 240000 / ((30 * 12 : ℕ) : ℚ) :=
  monthlyPayment_zero_rate_guard 240000 0 30 (by norm_num) (by norm_num)

/-! ## Frontend: ConfidenceBadge (C9) -/

/-- JavaScript `Math.round` (half up, toward +∞) on a rational. -/
def jsRound (x : ℚ) : ℤ := ⌊x + 1/2⌋

/-- The label computed by `ConfidenceBadge`:
`rounded >= 70 ? "High" : rounded >= 40 ? "Medium" : "Low"`. -/
def confidenceLabel (score : ℚ) : String :=
  if jsRound score ≥ 70 then "High"
  else if jsRound score ≥ 40 then "Medium"
  else "Low"

/-- The number the badge renders, as `rounded/100`: `Math.round(score)`. -/
def confidenceDisplay (score : ℚ) : ℤ := jsRound score

/-- **C9.** For every numeric confidence score the badge renders the
rounded score out of 100, labelled "High" iff the rounded score is ≥ 70,
"Medium" iff it is in [40, 70), and "Low" iff it is < 40. -/
theorem confidenceBadge_label (score : ℚ) :
    confidenceDisplay score = jsRound score ∧
    (confidenceLabel score = "High" ↔ 70 ≤ jsRound score) ∧
    (confidenceLabel score = "Medium" ↔ 40 ≤ jsRound score ∧ jsRound score < 70) ∧
    (confidenceLabel score = "Low" ↔ jsRound score < 40) := by
  refine ⟨rfl, ?_, ?_, ?_⟩ <;>
    · unfold confidenceLabel
      split_ifs <;> simp_all <;> omega

/-! ## Frontend: widget allow-list on the page (C10) -/

/-- The fixed allow-list `allowedWidgets` from `page.tsx`. -/
def allowedWidgets : List String :=
  ["market_snapshot", "trend_chart", "scenario_explorer", "comps_table",
   "distribution", "map_view"]

/-- `widgetsToRender` from `page.tsx`:
`(plan?.widgets ?? []).filter((w) => allowedWidgets.includes(w))`. -/
def widgetsToRender (plan : Option Plan) : List String :=
  ((plan.map Plan.widgets).getD []).filter (fun w => allowedWidgets.contains w)

/-- **C10.** The page renders exactly the widgets of the plan that appear
in the fixed six-element allow-list — any other value is filtered out —
and a missing plan yields an empty widget list. -/
theorem widgetsToRender_allowlist (p : Plan) (w : String) :
    (w ∈ widgetsToRender (some p) ↔ w ∈ p.widgets ∧ w ∈ allowedWidgets) ∧
    widgetsToRender none = [] ∧
    allowedWidgets.length = 6 := by
  refine ⟨?_, rfl, rfl⟩
  simp [widgetsToRender, List.mem_filter]

end RealEstate
